import Mathlib

/-!
Shallow embedding of the api-assistant repository (src/Assistant.py and
src/weatherv2.py) for checking the natural-language specification.

External effects (the hosted model API, the school REST API, the Python
json module acting on free-form model text, and the weather API) are
parameters of the embedding, collected in an `Env` record; the control
flow of the repository code is translated function by function.
-/

namespace ApiAssistant

/-- JSON values as produced by the Python `json` module.  Numeric values are
modelled as integers: no claim involves floating-point arithmetic on JSON
numbers, only structural slicing and equality. -/
inductive Json where
  | null
  | bool (b : Bool)
  | num (n : Int)
  | str (s : String)
  | arr (elems : List Json)
  | obj (fields : List (String × Json))
deriving Repr

mutual

def Json.decEq : (a b : Json) → Decidable (a = b)
  | .null, .null => isTrue rfl
  | .bool a, .bool b =>
      if h : a = b then isTrue (congrArg Json.bool h)
      else isFalse (fun hh => h (Json.bool.inj hh))
  | .num a, .num b =>
      if h : a = b then isTrue (congrArg Json.num h)
      else isFalse (fun hh => h (Json.num.inj hh))
  | .str a, .str b =>
      if h : a = b then isTrue (congrArg Json.str h)
      else isFalse (fun hh => h (Json.str.inj hh))
  | .arr a, .arr b =>
      match Json.decEqList a b with
      | isTrue h => isTrue (congrArg Json.arr h)
      | isFalse h => isFalse (fun hh => h (Json.arr.inj hh))
  | .obj a, .obj b =>
      match Json.decEqFields a b with
      | isTrue h => isTrue (congrArg Json.obj h)
      | isFalse h => isFalse (fun hh => h (Json.obj.inj hh))
  | .null, .bool _ | .null, .num _ | .null, .str _ | .null, .arr _
  | .null, .obj _ | .bool _, .null | .bool _, .num _ | .bool _, .str _
  | .bool _, .arr _ | .bool _, .obj _ | .num _, .null | .num _, .bool _
  | .num _, .str _ | .num _, .arr _ | .num _, .obj _ | .str _, .null
  | .str _, .bool _ | .str _, .num _ | .str _, .arr _ | .str _, .obj _
  | .arr _, .null | .arr _, .bool _ | .arr _, .num _ | .arr _, .str _
  | .arr _, .obj _ | .obj _, .null | .obj _, .bool _ | .obj _, .num _
  | .obj _, .str _ | .obj _, .arr _ => isFalse (fun hh => Json.noConfusion hh)

def Json.decEqList : (a b : List Json) → Decidable (a = b)
  | [], [] => isTrue rfl
  | [], _ :: _ => isFalse (fun hh => List.noConfusion hh)
  | _ :: _, [] => isFalse (fun hh => List.noConfusion hh)
  | x :: xs, y :: ys =>
      match Json.decEq x y with
      | isFalse h => isFalse (fun hh => h (List.cons.inj hh).1)
      | isTrue h1 =>
        match Json.decEqList xs ys with
        | isTrue h2 => isTrue (by rw [h1, h2])
        | isFalse h => isFalse (fun hh => h (List.cons.inj hh).2)

def Json.decEqFields : (a b : List (String × Json)) → Decidable (a = b)
  | [], [] => isTrue rfl
  | [], _ :: _ => isFalse (fun hh => List.noConfusion hh)
  | _ :: _, [] => isFalse (fun hh => List.noConfusion hh)
  | (k1, v1) :: xs, (k2, v2) :: ys =>
      if hk : k1 = k2 then
        match Json.decEq v1 v2 with
        | isFalse h =>
            isFalse (fun hh => h (congrArg Prod.snd (List.cons.inj hh).1))
        | isTrue h1 =>
          match Json.decEqFields xs ys with
          | isTrue h2 => isTrue (by rw [hk, h1, h2])
          | isFalse h => isFalse (fun hh => h (List.cons.inj hh).2)
      else
        isFalse (fun hh => hk (congrArg Prod.fst (List.cons.inj hh).1))

end

instance : DecidableEq Json := Json.decEq

/-- A single quote character, used by the Python repr of strings. -/
def squote : String := String.singleton (Char.ofNat 39)

mutual

/-- Python `repr` of a JSON value (dicts keep insertion order). -/
def Json.pyRepr : Json → String
  | .null => "None"
  | .bool true => "True"
  | .bool false => "False"
  | .num n => toString n
  | .str s => squote ++ s ++ squote
  | .arr es => "[" ++ Json.pyReprList es ++ "]"
  | .obj fs => "\x7b" ++ Json.pyReprFields fs ++ "\x7d"

def Json.pyReprList : List Json → String
  | [] => ""
  | [j] => Json.pyRepr j
  | j :: js => Json.pyRepr j ++ ", " ++ Json.pyReprList js

def Json.pyReprFields : List (String × Json) → String
  | [] => ""
  | [(k, v)] => squote ++ k ++ squote ++ ": " ++ Json.pyRepr v
  | (k, v) :: fs =>
      squote ++ k ++ squote ++ ": " ++ Json.pyRepr v ++ ", " ++ Json.pyReprFields fs

end

/-- Python `str` of a JSON value, as used by f-string interpolation. -/
def Json.pyStr : Json → String
  | .str s => s
  | j => Json.pyRepr j

/-- Python truthiness of a JSON value (`if not x` tests). -/
def Json.truthy : Json → Bool
  | .null => false
  | .bool b => b
  | .num n => n != 0
  | .str s => s != ""
  | .arr es => !es.isEmpty
  | .obj fs => !fs.isEmpty

/-- The whitespace characters stripped by the Python `str.strip()` default. -/
def isPyWhitespace (c : Char) : Bool :=
  c = ' ' || c = '\t' || c = '\n' || c = '\r' || c = Char.ofNat 11 || c = Char.ofNat 12

/-- Python `s.strip()`: remove leading and trailing whitespace. -/
def pyStrip (s : String) : String :=
  String.mk (((s.data.dropWhile isPyWhitespace).reverse.dropWhile isPyWhitespace).reverse)

/-- Python `d.get(k)` on a value that may not be a dict: a dict returns the
field (or None when absent), anything else raises AttributeError. -/
def pyDictGet (j : Json) (k : String) : Except String Json :=
  match j with
  | .obj fs => .ok ((List.lookup k fs).getD Json.null)
  | _ => .error "AttributeError"

/-- One conversation turn, `\x7b"role": ..., "content": ...\x7d` in the source. -/
structure Msg where
  role : String
  content : String
deriving Repr, DecidableEq

/-- Observable external calls made while processing a turn. -/
inductive Event where
  | modelCall (apiData : Option Json) (messages : List Msg)
  | fetchSchoolsCall
  | fetchRoomsCall (schoolUuid : Json)
  | fetchSensorsCall (roomUuid : Json)
  | fetchSensorValueCall (sensorUuid : Json)
deriving Repr, DecidableEq

/-- The external world of Assistant.py: the hosted model (taking the api-data
argument that selects the system prompt, and the outbound message list), the
Python json parser applied to free-form model text, and the four Resource
Client operations of ExternalAPIClient (the bearer token fetched at
construction is absorbed into these functions).  `Except.error` stands for a
raised exception carrying `str(e)`. -/
structure Env where
  model : Option Json → List Msg → Except String String
  jsonLoads : String → Option Json
  fetchSchools : Except String Json
  fetchRooms : Json → Except String Json
  fetchSensors : Json → Except String Json
  fetchSensorValue : Json → Except String Json

/-- In-memory state of a ClaudeChatbot instance. -/
structure ChatbotState where
  conversation_history : List Msg
deriving Repr, DecidableEq

/-- The fixed user-visible error string of call_claude_api. -/
def claude_error_message : String :=
  "Sorry, there was an error processing your request."

/-- `self.conversation_history[-4:] if len(self.conversation_history) > 4
else self.conversation_history` (Assistant.py line 130). -/
def recent_history (h : List Msg) : List Msg :=
  if h.length > 4 then h.drop (h.length - 4) else h

/-- ClaudeChatbot.call_claude_api (Assistant.py lines 101-147): builds the
outbound message list from the stored history and the current user message,
invokes the model, and converts any exception into the fixed error string. -/
def call_claude_api (env : Env) (history : List Msg) (user_message : String)
    (api_data : Option Json) : String × List Event :=
  let messages := recent_history history ++ [Msg.mk "user" user_message]
  match env.model api_data messages with
  | .ok text => (text, [Event.modelCall api_data messages])
  | .error _ => (claude_error_message, [Event.modelCall api_data messages])

/-- `\x7b"error": msg\x7d` objects built throughout Assistant.py. -/
def errObj (msg : String) : Json := Json.obj [("error", Json.str msg)]

/-- ClaudeChatbot.fetch_external_data (Assistant.py lines 183-207).  The
api_type is an arbitrary JSON value (it comes out of the parsed directive);
the outer try/except turns any exception from a client call, or from
`params.get` on a non-dict, into an error object. -/
def fetch_external_data (env : Env) (api_type : Json) (params : Json) :
    Json × List Event :=
  if api_type = Json.str "schools" then
    match env.fetchSchools with
    | .ok data => (data, [Event.fetchSchoolsCall])
    | .error e =>
        (errObj ("Failed to fetch " ++ api_type.pyStr ++ ": " ++ e),
         [Event.fetchSchoolsCall])
  else if api_type = Json.str "rooms" then
    match pyDictGet params "school_uuid" with
    | .error e => (errObj ("Failed to fetch " ++ api_type.pyStr ++ ": " ++ e), [])
    | .ok school_uuid =>
      if school_uuid.truthy = false then
        (errObj "School UUID required for fetching rooms", [])
      else
        match env.fetchRooms school_uuid with
        | .ok data => (data, [Event.fetchRoomsCall school_uuid])
        | .error e =>
            (errObj ("Failed to fetch " ++ api_type.pyStr ++ ": " ++ e),
             [Event.fetchRoomsCall school_uuid])
  else if api_type = Json.str "sensors" then
    match pyDictGet params "room_uuid" with
    | .error e => (errObj ("Failed to fetch " ++ api_type.pyStr ++ ": " ++ e), [])
    | .ok room_uuid =>
      if room_uuid.truthy = false then
        (errObj "Room UUID required for fetching sensors", [])
      else
        match env.fetchSensors room_uuid with
        | .ok data => (data, [Event.fetchSensorsCall room_uuid])
        | .error e =>
            (errObj ("Failed to fetch " ++ api_type.pyStr ++ ": " ++ e),
             [Event.fetchSensorsCall room_uuid])
  else if api_type = Json.str "values" then
    match pyDictGet params "sensor_uuid" with
    | .error e => (errObj ("Failed to fetch " ++ api_type.pyStr ++ ": " ++ e), [])
    | .ok sensor_uuid =>
      if sensor_uuid.truthy = false then
        (errObj "Sensor UUID required for fetching values", [])
      else
        match env.fetchSensorValue sensor_uuid with
        | .ok data => (data, [Event.fetchSensorValueCall sensor_uuid])
        | .error e =>
            (errObj ("Failed to fetch " ++ api_type.pyStr ++ ": " ++ e),
             [Event.fetchSensorValueCall sensor_uuid])
  else
    (errObj ("Unknown API type: " ++ api_type.pyStr), [])

/-- The directive-recognition step of process_message (Assistant.py lines
157-164): `json.loads` of the stripped phase-1 reply, the truthiness test on
`parsed_response.get("needsAPI")`, and the `parsed_response["apiType"]` /
`parsed_response.get("params", \x7b\x7d)` extraction.  `none` collects every
path that falls through to the direct answer: a JSONDecodeError, an
AttributeError from `.get` on a non-dict, a falsy needsAPI flag, and the
KeyError on a missing apiType; all of these are caught by the except clauses
and fall through to the regular-conversation tail of process_message. -/
def parsed_directive (env : Env) (reply : String) : Option (Json × Json) :=
  match env.jsonLoads (pyStrip reply) with
  | some (Json.obj fs) =>
    if ((List.lookup "needsAPI" fs).getD Json.null).truthy then
      match List.lookup "apiType" fs with
      | some t => some (t, (List.lookup "params" fs).getD (Json.obj []))
      | none => none
    else none
  | _ => none

/-- ClaudeChatbot.process_message (Assistant.py lines 149-181): append the
user turn, make the intent-phase model call, then either follow the directive
(fetch data, make the formatting-phase model call) or return the phase-1 text
directly; exactly one assistant turn is appended either way. -/
def process_message (env : Env) (st : ChatbotState) (user_message : String) :
    String × ChatbotState × List Event :=
  let hist1 := st.conversation_history ++ [Msg.mk "user" user_message]
  let c := call_claude_api env hist1 user_message none
  match parsed_directive env c.1 with
  | none => (c.1, ⟨hist1 ++ [Msg.mk "assistant" c.1]⟩, c.2)
  | some (api_type, params) =>
    let fd := fetch_external_data env api_type params
    let f := call_claude_api env hist1 user_message (some fd.1)
    (f.1, ⟨hist1 ++ [Msg.mk "assistant" f.1]⟩, c.2 ++ fd.2 ++ f.2)

/-- jsonify of the conversation list: each turn becomes a two-field object. -/
def conversationJson (h : List Msg) : Json :=
  Json.arr (h.map (fun m =>
    Json.obj [("role", Json.str m.role), ("content", Json.str m.content)]))

/-- The /api/chat route handler (Assistant.py lines 218-229).  The request
body is the value produced by `request.get_json()`; `data.get` on a non-dict
body and `.strip()` on a non-string message both raise inside the try block,
which the handler converts into a 500 response with a fixed error body.  The
result is ((http status, response body), new state, external calls made). -/
def chat (env : Env) (st : ChatbotState) (reqBody : Json) :
    (Nat × Json) × ChatbotState × List Event :=
  match reqBody with
  | Json.obj fs =>
    match (List.lookup "message" fs).getD (Json.str "") with
    | Json.str m =>
      let user_message := pyStrip m
      if user_message = "" then
        ((400, errObj "Message required"), st, [])
      else
        let r := process_message env st user_message
        ((200, Json.obj [("response", Json.str r.1),
                         ("conversation", conversationJson r.2.1.conversation_history)]),
         r.2.1, r.2.2)
    | _ => ((500, errObj "Internal error"), st, [])
  | _ => ((500, errObj "Internal error"), st, [])

/-- An HTTP response from the token endpoint: status code and parsed body. -/
structure HttpResponse where
  status_code : Nat
  body : Json
deriving Repr, DecidableEq

/-- `response.raise_for_status()`: raises HTTPError for 4xx and 5xx codes. -/
def raise_for_status (r : HttpResponse) : Except String Unit :=
  if 400 ≤ r.status_code ∧ r.status_code < 600 then
    .error ("HTTPError: " ++ toString r.status_code)
  else .ok ()

/-- get_access_token (Assistant.py lines 38-46), as a function of the HTTP
response of the token endpoint: raise_for_status, then
`response.json().get("access_token")`, whose result is None (`Json.null`)
when the field is absent from a dict body. -/
def get_access_token (resp : HttpResponse) : Except String Json :=
  match raise_for_status resp with
  | .error e => .error e
  | .ok _ =>
    match resp.body with
    | Json.obj fs => .ok ((List.lookup "access_token" fs).getD Json.null)
    | _ => .error "AttributeError"

/-! ### The weather script (src/weatherv2.py) -/

/-- What the weather script prints: the separator line, a header line, or a
chart.  Chart rendering is delegated to the external asciichartpy library, so
a chart is represented by the value series handed to `ac.plot`. -/
inductive OutputItem where
  | separator
  | header (text : String)
  | chart (values : List Json)
deriving Repr, DecidableEq

/-- Python subscript `j[k]` on a JSON value: KeyError when the key is absent
from a dict, TypeError on a non-dict. -/
def pyIndex (j : Json) (k : String) : Except String Json :=
  match j with
  | Json.obj fs =>
    match List.lookup k fs with
    | some v => .ok v
    | none => .error ("KeyError: " ++ k)
  | _ => .error "TypeError"

/-- Python slice `j[:n]` on a JSON value, which must be a list. -/
def pySlice (n : Nat) (j : Json) : Except String (List Json) :=
  match j with
  | Json.arr es => .ok (es.take n)
  | _ => .error "TypeError"

/-- The city dict of weatherv2.py, in declaration order: name, lat, lon. -/
def cities : List (String × Float × Float) :=
  [("Berlin", 52.52, 13.41), ("Paris", 48.85, 2.35), ("Rome", 41.90, 12.49)]

/-- One iteration of the city loop (weatherv2.py lines 13-32): fetch the
forecast for (lat, lon), slice the first 24 hourly temperature and humidity
values, and print the separator, the two headers and the two charts.  Any
exception aborts the iteration before it prints (both slices precede the
prints in the source). -/
def weatherCityReport (fetch : Float → Float → Except String Json)
    (city : String) (lat lon : Float) : Except String (List OutputItem) := do
  let data ← fetch lat lon
  let hourly ← pyIndex data "hourly"
  let tempsField ← pyIndex hourly "temperature_2m"
  let temps ← pySlice 24 tempsField
  let humidityField ← pyIndex hourly "relative_humidity_2m"
  let humidity ← pySlice 24 humidityField
  pure [OutputItem.separator,
        OutputItem.header (city ++ " — Temperature (°C)"),
        OutputItem.chart temps,
        OutputItem.header (city ++ " — Humidity (%)"),
        OutputItem.chart humidity]

/-- The whole weather script: the city loop in declaration order.  The script
has no error handling, so a raised exception terminates the run; the result
is the output printed before the abort, together with the exception if one
was raised. -/
def weatherMain (fetch : Float → Float → Except String Json) :
    List OutputItem × Option String :=
  cities.foldl (fun acc entry =>
    match acc.2 with
    | some _ => acc
    | none =>
      match weatherCityReport fetch entry.1 entry.2.1 entry.2.2 with
      | .ok out => (acc.1 ++ out, none)
      | .error e => (acc.1, some e)) ([], none)

/-- The values of a chart output item, for counting chart blocks. -/
def OutputItem.chartValues : OutputItem → Option (List Json)
  | .chart vs => some vs
  | _ => none

/-- The response shape the weather script expects from the forecast API:
a body whose "hourly" object carries the two series. -/
def forecastBody (temps humidity : List Json) : Json :=
  Json.obj [("hourly",
    Json.obj [("temperature_2m", Json.arr temps),
              ("relative_humidity_2m", Json.arr humidity)])]

/-! ### Spec-side formulations and concrete environments -/

/-- The last `n` elements of a list. -/
def lastN (n : Nat) (xs : List α) : List α := xs.drop (xs.length - n)

/-- Modelled from the claim wording for comparison with the code: the message
list the spec says the intent phase sends, namely the conversation context
capped to the last four turns appended BEFORE the current user message,
followed by the current user message. -/
def specIntentMessages (prior : List Msg) (user_message : String) : List Msg :=
  lastN 4 prior ++ [Msg.mk "user" user_message]

/-- The parsed directive named by C3: needsAPI true, apiType rooms, empty
params. -/
def roomsNoParamsDirective : Json :=
  Json.obj [("needsAPI", Json.bool true), ("apiType", Json.str "rooms"),
            ("params", Json.obj [])]

/-- The raw model reply whose json.loads value is `roomsNoParamsDirective`. -/
def roomsNoParamsText : String :=
  "\x7b\"needsAPI\": true, \"apiType\": \"rooms\", \"params\": \x7b\x7d\x7d"

/-- A rooms directive that does carry a school_uuid. -/
def roomsWithUuidDirective : Json :=
  Json.obj [("needsAPI", Json.bool true), ("apiType", Json.str "rooms"),
            ("params", Json.obj [("school_uuid", Json.str "u1")])]

/-- The raw model reply whose json.loads value is `roomsWithUuidDirective`. -/
def roomsWithUuidText : String :=
  "\x7b\"needsAPI\": true, \"apiType\": \"rooms\", \"params\": \x7b\"school_uuid\": \"u1\"\x7d\x7d"

/-- An environment in which the model always answers with plain text that is
not JSON, and the Resource Client is never reached. -/
def envPlainText : Env :=
  { model := fun _ _ => .ok "hello"
    jsonLoads := fun _ => none
    fetchSchools := .error "unreachable"
    fetchRooms := fun _ => .error "unreachable"
    fetchSensors := fun _ => .error "unreachable"
    fetchSensorValue := fun _ => .error "unreachable" }

/-- An environment in which the intent phase yields the rooms directive with
no school_uuid and the formatting phase yields plain text. -/
def envRoomsNoParams : Env :=
  { model := fun d _ => match d with
      | none => .ok roomsNoParamsText
      | some _ => .ok "Here is the formatted answer."
    jsonLoads := fun s =>
      if s = roomsNoParamsText then some roomsNoParamsDirective else none
    fetchSchools := .error "unreachable"
    fetchRooms := fun _ => .error "unreachable"
    fetchSensors := fun _ => .error "unreachable"
    fetchSensorValue := fun _ => .error "unreachable" }

/-- An environment in which the intent phase requests rooms for school u1,
the rooms fetch raises, and the formatting phase returns normal text. -/
def envRoomsFetchFails : Env :=
  { model := fun d _ => match d with
      | none => .ok roomsWithUuidText
      | some _ => .ok "Here are the rooms I found."
    jsonLoads := fun s =>
      if s = roomsWithUuidText then some roomsWithUuidDirective else none
    fetchSchools := .error "unreachable"
    fetchRooms := fun _ => .error "connection refused"
    fetchSensors := fun _ => .error "unreachable"
    fetchSensorValue := fun _ => .error "unreachable" }

/-- An environment in which every model call raises. -/
def envModelDown : Env :=
  { model := fun _ _ => .error "service unavailable"
    jsonLoads := fun _ => none
    fetchSchools := .error "unreachable"
    fetchRooms := fun _ => .error "unreachable"
    fetchSensors := fun _ => .error "unreachable"
    fetchSensorValue := fun _ => .error "unreachable" }

/-- An environment in which every Resource Client call raises. -/
def envClientDown : Env :=
  { model := fun _ _ => .ok "hello"
    jsonLoads := fun _ => none
    fetchSchools := .error "boom"
    fetchRooms := fun _ => .error "boom"
    fetchSensors := fun _ => .error "boom"
    fetchSensorValue := fun _ => .error "boom" }

/-- A chatbot state holding four stored turns. -/
def chatbot4 : ChatbotState :=
  ⟨[Msg.mk "user" "m1", Msg.mk "assistant" "r1",
    Msg.mk "user" "m2", Msg.mk "assistant" "r2"]⟩

/-! ### Helper lemmas -/

/-- call_claude_api records exactly one model invocation, whether the call
succeeds or raises. -/
theorem call_claude_api_events (env : Env) (h : List Msg) (u : String)
    (d : Option Json) :
    (call_claude_api env h u d).2 =
      [Event.modelCall d (recent_history h ++ [Msg.mk "user" u])] := by
  unfold call_claude_api
  dsimp only
  cases env.model d (recent_history h ++ [Msg.mk "user" u]) <;> rfl

/-- The conditional slice of the source equals the last-four window. -/
theorem recent_history_eq_lastN (h : List Msg) : recent_history h = lastN 4 h := by
  unfold recent_history lastN
  split
  · rfl
  · next hnot =>
    have h0 : h.length - 4 = 0 := by omega
    rw [h0, List.drop_zero]

/-- process_message always appends exactly the user turn and one assistant
turn carrying its returned text. -/
theorem process_message_history (env : Env) (st : ChatbotState) (u : String) :
    (process_message env st u).2.1.conversation_history =
      st.conversation_history ++
        [Msg.mk "user" u, Msg.mk "assistant" (process_message env st u).1] := by
  unfold process_message
  dsimp only
  split <;> simp

/-- The first external call of process_message is always the intent-phase
model call, whose message list is the last-four window of the stored history
(the current user turn already appended) followed by the user message again. -/
theorem process_message_first_event (env : Env) (st : ChatbotState) (u : String) :
    (process_message env st u).2.2.head? =
      some (Event.modelCall none
        (recent_history (st.conversation_history ++ [Msg.mk "user" u])
          ++ [Msg.mk "user" u])) := by
  unfold process_message
  dsimp only
  split <;> simp [call_claude_api_events]

/-- C2: for every user turn, process_message appends exactly one user turn
and exactly one assistant turn to the conversation history; the assistant
turn is the phase-1 reply when no directive is followed, and the phase-2
formatted text (the second model call, fed the fetched data) when the
directive path completes — never both for the same user turn. -/
theorem one_user_one_assistant_turn (env : Env) (st : ChatbotState) (u : String) :
    (process_message env st u).2.1.conversation_history =
      st.conversation_history ++
        [Msg.mk "user" u, Msg.mk "assistant" (process_message env st u).1]
    ∧ (match parsed_directive env
          (call_claude_api env (st.conversation_history ++ [Msg.mk "user" u]) u none).1 with
       | none =>
         (process_message env st u).1 =
           (call_claude_api env (st.conversation_history ++ [Msg.mk "user" u]) u none).1
       | some (t, p) =>
         (process_message env st u).1 =
           (call_claude_api env (st.conversation_history ++ [Msg.mk "user" u]) u
             (some (fetch_external_data env t p).1)).1) := by
  refine ⟨process_message_history env st u, ?_⟩
  unfold process_message
  dsimp only
  cases hd : parsed_directive env
      (call_claude_api env (st.conversation_history ++ [Msg.mk "user" u]) u none).1 with
  | none => simp [hd]
  | some tp => obtain ⟨t, p⟩ := tp; simp [hd]

/-- C1, counterexample: with four stored turns, the intent-phase message list
is NOT the last four turns appended before the current user message followed
by the current user message.  The stored history already contains the current
user turn when the window is taken, so the earliest of the four prior turns
is dropped and the current user message appears twice. -/
theorem intent_window_spec_counterexample :
    (process_message envPlainText chatbot4 "m3").2.2.head? =
      some (Event.modelCall none
        [Msg.mk "assistant" "r1", Msg.mk "user" "m2", Msg.mk "assistant" "r2",
         Msg.mk "user" "m3", Msg.mk "user" "m3"])
    ∧ [Msg.mk "assistant" "r1", Msg.mk "user" "m2", Msg.mk "assistant" "r2",
       Msg.mk "user" "m3", Msg.mk "user" "m3"] ≠
        specIntentMessages chatbot4.conversation_history "m3"
    ∧ Msg.mk "user" "m1" ∈ specIntentMessages chatbot4.conversation_history "m3"
    ∧ Msg.mk "user" "m1" ∉
        [Msg.mk "assistant" "r1", Msg.mk "user" "m2", Msg.mk "assistant" "r2",
         Msg.mk "user" "m3", Msg.mk "user" "m3"] := by
  refine ⟨by decide, by decide, by decide, by decide⟩

/-- C1, amended: the intent-phase message list is the last four turns of the
STORED history — where the current user message has already been appended —
followed by the current user message once more (so with at least four prior
turns only the last three prior turns remain as context and the current user
message appears twice); the full conversation history returned to the caller
in the chat response is never truncated. -/
theorem intent_window_and_full_history (env : Env) (st : ChatbotState) (u : String) :
    (process_message env st u).2.2.head? =
      some (Event.modelCall none
        (lastN 4 (st.conversation_history ++ [Msg.mk "user" u]) ++ [Msg.mk "user" u]))
    ∧ (∃ r, (process_message env st u).2.1.conversation_history =
        st.conversation_history ++ [Msg.mk "user" u, Msg.mk "assistant" r])
    ∧ (∀ (fs : List (String × Json)) (m : String),
        (List.lookup "message" fs).getD (Json.str "") = Json.str m → pyStrip m ≠ "" →
        (chat env st (Json.obj fs)).1 =
          (200, Json.obj [("response", Json.str (process_message env st (pyStrip m)).1),
            ("conversation",
             conversationJson (process_message env st (pyStrip m)).2.1.conversation_history)])) := by
  refine ⟨?_, ⟨(process_message env st u).1, process_message_history env st u⟩, ?_⟩
  · rw [process_message_first_event, recent_history_eq_lastN]
  · intro fs m hm htrim
    unfold chat
    dsimp only
    rw [hm]
    dsimp only
    rw [if_neg htrim]

/-- C1, witness for the amended theorem at a concrete environment. -/
theorem intent_window_and_full_history_witness :
    ((List.lookup "message" [("message", Json.str " hi ")]).getD (Json.str "")
       = Json.str " hi ")
    ∧ pyStrip " hi " ≠ ""
    ∧ (chat envPlainText ⟨[]⟩ (Json.obj [("message", Json.str " hi ")])).1 =
        (200, Json.obj [("response", Json.str (process_message envPlainText ⟨[]⟩ (pyStrip " hi ")).1),
          ("conversation",
           conversationJson
             (process_message envPlainText ⟨[]⟩ (pyStrip " hi ")).2.1.conversation_history)]) :=
  ⟨by decide, by decide,
   (intent_window_and_full_history envPlainText ⟨[]⟩ "hi").2.2
     [("message", Json.str " hi ")] " hi " (by decide) (by decide)⟩

/-- C3: if the phase-1 reply parses as needsAPI true, apiType rooms, empty
params, the rooms fetch of the Resource Client is never invoked, and the
exact object (error: School UUID required for fetching rooms) is the api_data
argument of the second model call. -/
theorem rooms_without_uuid_short_circuits (env : Env) (st : ChatbotState) (u : String)
    (hparse : env.jsonLoads
        (pyStrip (call_claude_api env (st.conversation_history ++ [Msg.mk "user" u]) u none).1)
      = some roomsNoParamsDirective) :
    (∀ v, Event.fetchRoomsCall v ∉ (process_message env st u).2.2)
    ∧ (process_message env st u).2.2 =
      [Event.modelCall none
         (recent_history (st.conversation_history ++ [Msg.mk "user" u]) ++ [Msg.mk "user" u]),
       Event.modelCall (some (errObj "School UUID required for fetching rooms"))
         (recent_history (st.conversation_history ++ [Msg.mk "user" u]) ++ [Msg.mk "user" u])] := by
  have hdir : parsed_directive env
      (call_claude_api env (st.conversation_history ++ [Msg.mk "user" u]) u none).1
      = some (Json.str "rooms", Json.obj []) := by
    unfold parsed_directive
    rw [hparse]
    rfl
  have hfd : fetch_external_data env (Json.str "rooms") (Json.obj []) =
      (errObj "School UUID required for fetching rooms", []) := by
    rfl
  have hev : (process_message env st u).2.2 =
      [Event.modelCall none
         (recent_history (st.conversation_history ++ [Msg.mk "user" u]) ++ [Msg.mk "user" u]),
       Event.modelCall (some (errObj "School UUID required for fetching rooms"))
         (recent_history (st.conversation_history ++ [Msg.mk "user" u]) ++ [Msg.mk "user" u])] := by
    unfold process_message
    dsimp only
    rw [hdir]
    dsimp only
    rw [hfd]
    simp [call_claude_api_events]
  exact ⟨fun v => by rw [hev]; simp, hev⟩

/-- C3, witness at a concrete environment whose model emits the directive. -/
theorem rooms_without_uuid_short_circuits_witness :
    (envRoomsNoParams.jsonLoads
        (pyStrip (call_claude_api envRoomsNoParams
            ((⟨[]⟩ : ChatbotState).conversation_history ++ [Msg.mk "user" "rooms please"])
            "rooms please" none).1)
      = some roomsNoParamsDirective)
    ∧ ((∀ v, Event.fetchRoomsCall v ∉
          (process_message envRoomsNoParams ⟨[]⟩ "rooms please").2.2)
       ∧ (process_message envRoomsNoParams ⟨[]⟩ "rooms please").2.2 =
         [Event.modelCall none
            (recent_history ((⟨[]⟩ : ChatbotState).conversation_history
              ++ [Msg.mk "user" "rooms please"]) ++ [Msg.mk "user" "rooms please"]),
          Event.modelCall (some (errObj "School UUID required for fetching rooms"))
            (recent_history ((⟨[]⟩ : ChatbotState).conversation_history
              ++ [Msg.mk "user" "rooms please"]) ++ [Msg.mk "user" "rooms please"])]) :=
  ⟨by decide,
   rooms_without_uuid_short_circuits envRoomsNoParams ⟨[]⟩ "rooms please" (by decide)⟩

/-- The phase-1 reply parses but the parsed value lacks the directive keys:
either it is not a dict at all, or needsAPI or apiType is absent. -/
def lacksDirectiveKeys : Json → Prop
  | Json.obj fs => List.lookup "needsAPI" fs = none ∨ List.lookup "apiType" fs = none
  | _ => True

/-- C4: if the phase-1 reply is not parseable as JSON, or parses but lacks
the expected directive keys, it is treated as a direct answer: the Resource
Client is never invoked, no second model call occurs, and the conversation
log gains exactly one user turn and one assistant turn equal to the phase-1
reply verbatim. -/
theorem non_directive_reply_is_direct_answer (env : Env) (st : ChatbotState) (u : String)
    (h : env.jsonLoads
          (pyStrip (call_claude_api env (st.conversation_history ++ [Msg.mk "user" u]) u none).1)
        = none
      ∨ ∃ p, env.jsonLoads
          (pyStrip (call_claude_api env (st.conversation_history ++ [Msg.mk "user" u]) u none).1)
        = some p ∧ lacksDirectiveKeys p) :
    process_message env st u =
      ((call_claude_api env (st.conversation_history ++ [Msg.mk "user" u]) u none).1,
       ⟨st.conversation_history ++ [Msg.mk "user" u,
          Msg.mk "assistant"
            (call_claude_api env (st.conversation_history ++ [Msg.mk "user" u]) u none).1]⟩,
       [Event.modelCall none
          (recent_history (st.conversation_history ++ [Msg.mk "user" u])
            ++ [Msg.mk "user" u])]) := by
  have hdir : parsed_directive env
      (call_claude_api env (st.conversation_history ++ [Msg.mk "user" u]) u none).1
      = none := by
    unfold parsed_directive
    rcases h with h | ⟨p, hp, hkeys⟩
    · rw [h]
    · rw [hp]
      cases p with
      | obj fs =>
        simp only [lacksDirectiveKeys] at hkeys
        dsimp only
        rcases hkeys with hk | hk
        · rw [hk]
          simp [Json.truthy]
        · split
          · rw [hk]
          · rfl
      | null => rfl
      | bool b => rfl
      | num n => rfl
      | str s => rfl
      | arr es => rfl
  unfold process_message
  dsimp only
  rw [hdir]
  simp [call_claude_api_events]

/-- C4, witness: a plain-text reply at a concrete environment. -/
theorem non_directive_reply_is_direct_answer_witness :
    (envPlainText.jsonLoads
        (pyStrip (call_claude_api envPlainText
            ((⟨[]⟩ : ChatbotState).conversation_history ++ [Msg.mk "user" "hi"])
            "hi" none).1)
      = none)
    ∧ process_message envPlainText ⟨[]⟩ "hi" =
        ((call_claude_api envPlainText
            ((⟨[]⟩ : ChatbotState).conversation_history ++ [Msg.mk "user" "hi"]) "hi" none).1,
         ⟨(⟨[]⟩ : ChatbotState).conversation_history ++ [Msg.mk "user" "hi",
            Msg.mk "assistant"
              (call_claude_api envPlainText
                ((⟨[]⟩ : ChatbotState).conversation_history ++ [Msg.mk "user" "hi"])
                "hi" none).1]⟩,
         [Event.modelCall none
            (recent_history ((⟨[]⟩ : ChatbotState).conversation_history
              ++ [Msg.mk "user" "hi"]) ++ [Msg.mk "user" "hi"])]) :=
  ⟨rfl, non_directive_reply_is_direct_answer envPlainText ⟨[]⟩ "hi" (Or.inl rfl)⟩

/-- C5: a POST to /api/chat whose message field is empty or whitespace-only
after trimming yields HTTP 400 with an error field, leaves the conversation
history unchanged, and makes no model or Resource Client call. -/
theorem empty_message_yields_400 (env : Env) (st : ChatbotState)
    (fs : List (String × Json)) (m : String)
    (hmsg : (List.lookup "message" fs).getD (Json.str "") = Json.str m)
    (htrim : pyStrip m = "") :
    chat env st (Json.obj fs) = ((400, errObj "Message required"), st, []) := by
  unfold chat
  dsimp only
  rw [hmsg]
  dsimp only
  rw [htrim]
  simp

/-- C5, witness: a whitespace-only message. -/
theorem empty_message_yields_400_witness :
    ((List.lookup "message" [("message", Json.str "   ")]).getD (Json.str "")
       = Json.str "   ")
    ∧ pyStrip "   " = ""
    ∧ chat envPlainText ⟨[]⟩ (Json.obj [("message", Json.str "   ")]) =
        ((400, errObj "Message required"), ⟨[]⟩, []) :=
  ⟨by decide, by decide,
   empty_message_yields_400 envPlainText ⟨[]⟩ [("message", Json.str "   ")] "   "
     (by decide) (by decide)⟩

/-- C6, counterexample: an exception raised during the process_message flow
— here the rooms fetch of the Resource Client raising — does NOT yield the
fixed user-visible error string: the exception is converted into an error
object, handed to the second model call, and that model text is returned. -/
theorem exception_fixed_string_counterexample :
    Event.fetchRoomsCall (Json.str "u1")
      ∈ (process_message envRoomsFetchFails ⟨[]⟩ "list rooms").2.2
    ∧ envRoomsFetchFails.fetchRooms (Json.str "u1") = Except.error "connection refused"
    ∧ (process_message envRoomsFetchFails ⟨[]⟩ "list rooms").1 ≠ claude_error_message
    ∧ (process_message envRoomsFetchFails ⟨[]⟩ "list rooms").1
        = "Here are the rooms I found." :=
  ⟨by decide, rfl, by decide, by decide⟩

/-- C6, amended: an exception raised during a MODEL API call yields the fixed
user-visible error string as the result of that call, and the call is not
retried (exactly one model invocation is recorded); when the intent-phase
model call fails this way, process_message returns and stores the fixed
string.  An exception in a Resource Client call instead becomes an error
object passed to the second model call, so it does not produce the fixed
string. -/
theorem model_call_exception_fixed_string :
    (∀ (env : Env) (history : List Msg) (u : String) (d : Option Json) (e : String),
      env.model d (recent_history history ++ [Msg.mk "user" u]) = Except.error e →
      call_claude_api env history u d =
        (claude_error_message,
         [Event.modelCall d (recent_history history ++ [Msg.mk "user" u])]))
    ∧ (∀ (env : Env) (st : ChatbotState) (u : String) (e : String),
      env.model none
          (recent_history (st.conversation_history ++ [Msg.mk "user" u]) ++ [Msg.mk "user" u])
        = Except.error e →
      env.jsonLoads (pyStrip claude_error_message) = none →
      process_message env st u =
        (claude_error_message,
         ⟨st.conversation_history
            ++ [Msg.mk "user" u, Msg.mk "assistant" claude_error_message]⟩,
         [Event.modelCall none
            (recent_history (st.conversation_history ++ [Msg.mk "user" u])
              ++ [Msg.mk "user" u])])) := by
  have part1 : ∀ (env : Env) (history : List Msg) (u : String) (d : Option Json) (e : String),
      env.model d (recent_history history ++ [Msg.mk "user" u]) = Except.error e →
      call_claude_api env history u d =
        (claude_error_message,
         [Event.modelCall d (recent_history history ++ [Msg.mk "user" u])]) := by
    intro env history u d e hfail
    unfold call_claude_api
    dsimp only
    rw [hfail]
  refine ⟨part1, ?_⟩
  intro env st u e hfail hparse
  have hc := part1 env (st.conversation_history ++ [Msg.mk "user" u]) u none e hfail
  have hdir : parsed_directive env
      (call_claude_api env (st.conversation_history ++ [Msg.mk "user" u]) u none).1
      = none := by
    rw [hc]
    unfold parsed_directive
    dsimp only
    rw [hparse]
  unfold process_message
  dsimp only
  rw [hdir]
  dsimp only
  rw [hc]
  simp

/-- C6, witness for the amended theorem: a model outage. -/
theorem model_call_exception_fixed_string_witness :
    (envModelDown.model none
        (recent_history ((⟨[]⟩ : ChatbotState).conversation_history
          ++ [Msg.mk "user" "hi"]) ++ [Msg.mk "user" "hi"])
      = Except.error "service unavailable")
    ∧ envModelDown.jsonLoads (pyStrip claude_error_message) = none
    ∧ call_claude_api envModelDown [Msg.mk "user" "hi"] "hi" none =
        (claude_error_message,
         [Event.modelCall none
            (recent_history [Msg.mk "user" "hi"] ++ [Msg.mk "user" "hi"])])
    ∧ process_message envModelDown ⟨[]⟩ "hi" =
        (claude_error_message,
         ⟨(⟨[]⟩ : ChatbotState).conversation_history
            ++ [Msg.mk "user" "hi", Msg.mk "assistant" claude_error_message]⟩,
         [Event.modelCall none
            (recent_history ((⟨[]⟩ : ChatbotState).conversation_history
              ++ [Msg.mk "user" "hi"]) ++ [Msg.mk "user" "hi"])]) :=
  ⟨rfl, rfl,
   model_call_exception_fixed_string.1 envModelDown [Msg.mk "user" "hi"] "hi" none
     "service unavailable" rfl,
   model_call_exception_fixed_string.2 envModelDown ⟨[]⟩ "hi" "service unavailable" rfl rfl⟩

/-- C7: get_access_token raises when the token endpoint answers with an HTTP
error status, but on a success status whose dict body lacks the access_token
field it returns None (an absent value) without raising any failure. -/
theorem get_access_token_error_behavior :
    (∀ r : HttpResponse, 400 ≤ r.status_code → r.status_code < 600 →
      ∃ e, get_access_token r = Except.error e)
    ∧ (∀ (r : HttpResponse) (fs : List (String × Json)),
      r.status_code < 400 → r.body = Json.obj fs →
      List.lookup "access_token" fs = none →
      get_access_token r = Except.ok Json.null) := by
  constructor
  · intro r h1 h2
    refine ⟨"HTTPError: " ++ toString r.status_code, ?_⟩
    unfold get_access_token raise_for_status
    rw [if_pos ⟨h1, h2⟩]
  · intro r fs h1 hbody hlookup
    unfold get_access_token raise_for_status
    rw [if_neg (by omega : ¬(400 ≤ r.status_code ∧ r.status_code < 600))]
    dsimp only
    rw [hbody]
    dsimp only
    rw [hlookup]
    rfl

/-- C7, witness: a 401 response raises; a 200 response with no access_token
field yields None without raising. -/
theorem get_access_token_error_behavior_witness :
    400 ≤ (HttpResponse.mk 401 (Json.obj [])).status_code
    ∧ (HttpResponse.mk 401 (Json.obj [])).status_code < 600
    ∧ (∃ e, get_access_token (HttpResponse.mk 401 (Json.obj [])) = Except.error e)
    ∧ (HttpResponse.mk 200 (Json.obj [("token_type", Json.str "bearer")])).status_code < 400
    ∧ get_access_token (HttpResponse.mk 200 (Json.obj [("token_type", Json.str "bearer")]))
        = Except.ok Json.null :=
  ⟨by decide, by decide,
   get_access_token_error_behavior.1 (HttpResponse.mk 401 (Json.obj []))
     (by decide) (by decide),
   by decide,
   get_access_token_error_behavior.2
     (HttpResponse.mk 200 (Json.obj [("token_type", Json.str "bearer")]))
     [("token_type", Json.str "bearer")] (by decide) rfl (by decide)⟩

/-- C9: fetch_external_data never propagates an exception: an api_type
outside the four known kinds yields the Unknown-API-type error object with no
client call, and an exception raised by a Resource Client call yields the
Failed-to-fetch error object; the directive path therefore always hands some
data object to the second model call. -/
theorem fetch_external_data_total_errors :
    (∀ (env : Env) (t : String) (params : Json),
      t ≠ "schools" → t ≠ "rooms" → t ≠ "sensors" → t ≠ "values" →
      fetch_external_data env (Json.str t) params =
        (errObj ("Unknown API type: " ++ t), []))
    ∧ (∀ (env : Env) (params : Json) (e : String),
      env.fetchSchools = Except.error e →
      fetch_external_data env (Json.str "schools") params =
        (errObj ("Failed to fetch schools: " ++ e), [Event.fetchSchoolsCall]))
    ∧ (∀ (env : Env) (params : Json) (v : Json) (e : String),
      pyDictGet params "school_uuid" = Except.ok v → v.truthy = true →
      env.fetchRooms v = Except.error e →
      fetch_external_data env (Json.str "rooms") params =
        (errObj ("Failed to fetch rooms: " ++ e), [Event.fetchRoomsCall v]))
    ∧ (∀ (env : Env) (params : Json) (v : Json) (e : String),
      pyDictGet params "room_uuid" = Except.ok v → v.truthy = true →
      env.fetchSensors v = Except.error e →
      fetch_external_data env (Json.str "sensors") params =
        (errObj ("Failed to fetch sensors: " ++ e), [Event.fetchSensorsCall v]))
    ∧ (∀ (env : Env) (params : Json) (v : Json) (e : String),
      pyDictGet params "sensor_uuid" = Except.ok v → v.truthy = true →
      env.fetchSensorValue v = Except.error e →
      fetch_external_data env (Json.str "values") params =
        (errObj ("Failed to fetch values: " ++ e), [Event.fetchSensorValueCall v])) := by
  refine ⟨?_, ?_, ?_, ?_, ?_⟩
  · intro env t params h1 h2 h3 h4
    unfold fetch_external_data
    rw [if_neg (fun hh => h1 (Json.str.inj hh)), if_neg (fun hh => h2 (Json.str.inj hh)),
        if_neg (fun hh => h3 (Json.str.inj hh)), if_neg (fun hh => h4 (Json.str.inj hh))]
    rfl
  · intro env params e hs
    unfold fetch_external_data
    rw [if_pos rfl, hs]
    rfl
  · intro env params v e hpd hv hr
    unfold fetch_external_data
    rw [if_neg (by decide), if_pos rfl, hpd]
    dsimp only
    rw [hv, hr]
    rfl
  · intro env params v e hpd hv hr
    unfold fetch_external_data
    rw [if_neg (by decide), if_neg (by decide), if_pos rfl, hpd]
    dsimp only
    rw [hv, hr]
    rfl
  · intro env params v e hpd hv hr
    unfold fetch_external_data
    rw [if_neg (by decide), if_neg (by decide), if_neg (by decide), if_pos rfl, hpd]
    dsimp only
    rw [hv, hr]
    rfl

/-- C9, witness: concrete unknown api type and failing client calls. -/
theorem fetch_external_data_total_errors_witness :
    ("bogus" ≠ "schools" ∧ "bogus" ≠ "rooms" ∧ "bogus" ≠ "sensors" ∧ "bogus" ≠ "values")
    ∧ fetch_external_data envClientDown (Json.str "bogus") (Json.obj []) =
        (errObj ("Unknown API type: " ++ "bogus"), [])
    ∧ (envClientDown.fetchSchools = Except.error "boom"
       ∧ fetch_external_data envClientDown (Json.str "schools") (Json.obj []) =
           (errObj ("Failed to fetch schools: " ++ "boom"), [Event.fetchSchoolsCall]))
    ∧ (pyDictGet (Json.obj [("school_uuid", Json.str "u1")]) "school_uuid"
         = Except.ok (Json.str "u1")
       ∧ (Json.str "u1").truthy = true
       ∧ fetch_external_data envClientDown (Json.str "rooms")
           (Json.obj [("school_uuid", Json.str "u1")]) =
           (errObj ("Failed to fetch rooms: " ++ "boom"),
            [Event.fetchRoomsCall (Json.str "u1")]))
    ∧ (pyDictGet (Json.obj [("room_uuid", Json.str "u2")]) "room_uuid"
         = Except.ok (Json.str "u2")
       ∧ fetch_external_data envClientDown (Json.str "sensors")
           (Json.obj [("room_uuid", Json.str "u2")]) =
           (errObj ("Failed to fetch sensors: " ++ "boom"),
            [Event.fetchSensorsCall (Json.str "u2")]))
    ∧ (pyDictGet (Json.obj [("sensor_uuid", Json.str "u3")]) "sensor_uuid"
         = Except.ok (Json.str "u3")
       ∧ fetch_external_data envClientDown (Json.str "values")
           (Json.obj [("sensor_uuid", Json.str "u3")]) =
           (errObj ("Failed to fetch values: " ++ "boom"),
            [Event.fetchSensorValueCall (Json.str "u3")])) :=
  ⟨⟨by decide, by decide, by decide, by decide⟩,
   fetch_external_data_total_errors.1 envClientDown "bogus" (Json.obj [])
     (by decide) (by decide) (by decide) (by decide),
   ⟨rfl, fetch_external_data_total_errors.2.1 envClientDown (Json.obj []) "boom" rfl⟩,
   ⟨rfl, by decide,
    fetch_external_data_total_errors.2.2.1 envClientDown
      (Json.obj [("school_uuid", Json.str "u1")]) (Json.str "u1") "boom"
      rfl (by decide) rfl⟩,
   ⟨rfl,
    fetch_external_data_total_errors.2.2.2.1 envClientDown
      (Json.obj [("room_uuid", Json.str "u2")]) (Json.str "u2") "boom"
      rfl (by decide) rfl⟩,
   ⟨rfl,
    fetch_external_data_total_errors.2.2.2.2 envClientDown
      (Json.obj [("sensor_uuid", Json.str "u3")]) (Json.str "u3") "boom"
      rfl (by decide) rfl⟩⟩

/-- C10: a /api/chat body that is not a JSON object, or whose message field
is present but not a string, makes the handler raise inside its try block and
answer HTTP 500 with the Internal error body, leaving the conversation
history unchanged and making no model or Resource Client call. -/
theorem non_string_message_yields_500 :
    (∀ (env : Env) (st : ChatbotState) (b : Json), (∀ fs, b ≠ Json.obj fs) →
      chat env st b = ((500, errObj "Internal error"), st, []))
    ∧ (∀ (env : Env) (st : ChatbotState) (fs : List (String × Json)) (v : Json),
      List.lookup "message" fs = some v → (∀ s, v ≠ Json.str s) →
      chat env st (Json.obj fs) = ((500, errObj "Internal error"), st, [])) := by
  constructor
  · intro env st b hb
    unfold chat
    cases b with
    | obj fs => exact absurd rfl (hb fs)
    | null => rfl
    | bool x => rfl
    | num x => rfl
    | str x => rfl
    | arr x => rfl
  · intro env st fs v hv hvs
    unfold chat
    dsimp only
    rw [hv]
    dsimp only [Option.getD]
    cases v with
    | str s => exact absurd rfl (hvs s)
    | null => rfl
    | bool x => rfl
    | num x => rfl
    | arr x => rfl
    | obj x => rfl

/-- C10, witness: an array body, and an object body whose message is 5. -/
theorem non_string_message_yields_500_witness :
    chat envPlainText ⟨[]⟩ (Json.arr []) = ((500, errObj "Internal error"), ⟨[]⟩, [])
    ∧ List.lookup "message" [("message", Json.num 5)] = some (Json.num 5)
    ∧ chat envPlainText ⟨[]⟩ (Json.obj [("message", Json.num 5)]) =
        ((500, errObj "Internal error"), ⟨[]⟩, []) :=
  ⟨non_string_message_yields_500.1 envPlainText ⟨[]⟩ (Json.arr [])
     (fun fs h => Json.noConfusion h),
   by decide,
   non_string_message_yields_500.2 envPlainText ⟨[]⟩ [("message", Json.num 5)]
     (Json.num 5) (by decide) (fun s h => Json.noConfusion h)⟩

/-- C8: with responses for Berlin, Paris and Rome that each carry at least 24
hourly temperature and humidity values, the weather script prints exactly six
chart blocks — two per city, temperature then humidity — in city-declaration
order, each chart using only the first 24 values of its series. -/
theorem weather_six_charts (fetch : Float → Float → Except String Json)
    (tB hB tP hP tR hR : List Json)
    (hBerlin : fetch 52.52 13.41 = Except.ok (forecastBody tB hB))
    (hParis : fetch 48.85 2.35 = Except.ok (forecastBody tP hP))
    (hRome : fetch 41.90 12.49 = Except.ok (forecastBody tR hR))
    (htB : 24 ≤ tB.length) (hhB : 24 ≤ hB.length) (htP : 24 ≤ tP.length)
    (hhP : 24 ≤ hP.length) (htR : 24 ≤ tR.length) (hhR : 24 ≤ hR.length) :
    weatherMain fetch =
      ([OutputItem.separator,
        OutputItem.header "Berlin — Temperature (°C)", OutputItem.chart (tB.take 24),
        OutputItem.header "Berlin — Humidity (%)", OutputItem.chart (hB.take 24),
        OutputItem.separator,
        OutputItem.header "Paris — Temperature (°C)", OutputItem.chart (tP.take 24),
        OutputItem.header "Paris — Humidity (%)", OutputItem.chart (hP.take 24),
        OutputItem.separator,
        OutputItem.header "Rome — Temperature (°C)", OutputItem.chart (tR.take 24),
        OutputItem.header "Rome — Humidity (%)", OutputItem.chart (hR.take 24)], none)
    ∧ (weatherMain fetch).1.filterMap OutputItem.chartValues =
        [tB.take 24, hB.take 24, tP.take 24, hP.take 24, tR.take 24, hR.take 24]
    ∧ ∀ vs ∈ (weatherMain fetch).1.filterMap OutputItem.chartValues,
        vs.length = 24 := by
  have hcB : weatherCityReport fetch "Berlin" 52.52 13.41 =
      Except.ok [OutputItem.separator,
        OutputItem.header "Berlin — Temperature (°C)", OutputItem.chart (tB.take 24),
        OutputItem.header "Berlin — Humidity (%)", OutputItem.chart (hB.take 24)] := by
    unfold weatherCityReport
    rw [hBerlin]
    rfl
  have hcP : weatherCityReport fetch "Paris" 48.85 2.35 =
      Except.ok [OutputItem.separator,
        OutputItem.header "Paris — Temperature (°C)", OutputItem.chart (tP.take 24),
        OutputItem.header "Paris — Humidity (%)", OutputItem.chart (hP.take 24)] := by
    unfold weatherCityReport
    rw [hParis]
    rfl
  have hcR : weatherCityReport fetch "Rome" 41.90 12.49 =
      Except.ok [OutputItem.separator,
        OutputItem.header "Rome — Temperature (°C)", OutputItem.chart (tR.take 24),
        OutputItem.header "Rome — Humidity (%)", OutputItem.chart (hR.take 24)] := by
    unfold weatherCityReport
    rw [hRome]
    rfl
  have hmain : weatherMain fetch =
      ([OutputItem.separator,
        OutputItem.header "Berlin — Temperature (°C)", OutputItem.chart (tB.take 24),
        OutputItem.header "Berlin — Humidity (%)", OutputItem.chart (hB.take 24),
        OutputItem.separator,
        OutputItem.header "Paris — Temperature (°C)", OutputItem.chart (tP.take 24),
        OutputItem.header "Paris — Humidity (%)", OutputItem.chart (hP.take 24),
        OutputItem.separator,
        OutputItem.header "Rome — Temperature (°C)", OutputItem.chart (tR.take 24),
        OutputItem.header "Rome — Humidity (%)", OutputItem.chart (hR.take 24)], none) := by
    unfold weatherMain cities
    rw [List.foldl_cons, List.foldl_cons, List.foldl_cons, List.foldl_nil]
    dsimp only
    rw [hcB]
    dsimp only
    rw [hcP]
    dsimp only
    rw [hcR]
    rfl
  refine ⟨hmain, ?_, ?_⟩
  · rw [hmain]
    rfl
  · rw [hmain]
    intro vs hvs
    have hv6 : vs = tB.take 24 ∨ vs = hB.take 24 ∨ vs = tP.take 24
        ∨ vs = hP.take 24 ∨ vs = tR.take 24 ∨ vs = hR.take 24 := by
      simpa [OutputItem.chartValues, List.filterMap] using hvs
    rcases hv6 with rfl | rfl | rfl | rfl | rfl | rfl <;>
      simp only [List.length_take] <;> omega

/-- The 24-sample series used to instantiate the weather theorem. -/
def sample24 : List Json := (List.range 24).map (fun i => Json.num (Int.ofNat i))

/-- A deterministic mock forecast API returning 24 samples for every city. -/
def mockFetch : Float → Float → Except String Json :=
  fun _ _ => Except.ok (forecastBody sample24 sample24)

/-- C8, witness: the deterministic mock responses. -/
theorem weather_six_charts_witness :
    mockFetch 52.52 13.41 = Except.ok (forecastBody sample24 sample24)
    ∧ 24 ≤ sample24.length
    ∧ (weatherMain mockFetch =
        ([OutputItem.separator,
          OutputItem.header "Berlin — Temperature (°C)", OutputItem.chart (sample24.take 24),
          OutputItem.header "Berlin — Humidity (%)", OutputItem.chart (sample24.take 24),
          OutputItem.separator,
          OutputItem.header "Paris — Temperature (°C)", OutputItem.chart (sample24.take 24),
          OutputItem.header "Paris — Humidity (%)", OutputItem.chart (sample24.take 24),
          OutputItem.separator,
          OutputItem.header "Rome — Temperature (°C)", OutputItem.chart (sample24.take 24),
          OutputItem.header "Rome — Humidity (%)", OutputItem.chart (sample24.take 24)], none)
       ∧ (weatherMain mockFetch).1.filterMap OutputItem.chartValues =
          [sample24.take 24, sample24.take 24, sample24.take 24,
           sample24.take 24, sample24.take 24, sample24.take 24]
       ∧ ∀ vs ∈ (weatherMain mockFetch).1.filterMap OutputItem.chartValues,
          vs.length = 24) :=
  ⟨rfl, by decide,
   weather_six_charts mockFetch sample24 sample24 sample24 sample24 sample24 sample24
     rfl rfl rfl (by decide) (by decide) (by decide) (by decide) (by decide) (by decide)⟩

end ApiAssistant
